import Mathlib

/-!
Verification of the ISO-NE grid monitor's status/forecast normalization engine.

Shallow embedding of `custom_components/isone_grid_monitor/coordinator.py`
(status parsing, OP-4 action extraction, forecast-CSV analysis, capacity
fetch fallback, capacity margin, refresh cadence) and of the relevant
constants from `const.py`.  Python floats are modelled as rationals (ℚ);
text is modelled as `List Char` after `String.toList`.
-/

namespace IsoNe

/-! ### Character and string primitives (Python `str` operations, ASCII) -/

/-- ASCII lower-casing of one character, as Python `str.lower` acts on ASCII. -/
def lowerChar (c : Char) : Char :=
  if 'A' ≤ c && c ≤ 'Z' then Char.ofNat (c.toNat + 32) else c

/-- `text.lower()` over the character list. -/
def asciiLower (l : List Char) : List Char := l.map lowerChar

/-- Character list of a string literal. -/
def lstr (s : String) : List Char := s.toList

/-- Does `hay` start with `needle`? -/
def startsWithL : List Char → List Char → Bool
  | [], _ => true
  | _ :: _, [] => false
  | c :: cs, d :: ds => c == d && startsWithL cs ds

/-- Python's substring test `needle in hay`. -/
def containsSub (needle : List Char) : List Char → Bool
  | [] => startsWithL needle []
  | c :: cs => startsWithL needle (c :: cs) || containsSub needle cs

/-- Python `\d` (ASCII digits, as appear in this feed). -/
def isPyDigit (c : Char) : Bool := '0' ≤ c && c ≤ '9'

/-- Python whitespace (`\s`, `str.strip()` default set), ASCII part. -/
def isPySpace (c : Char) : Bool :=
  c == ' ' || c == '\t' || c == '\n' || c == '\r' ||
  c == Char.ofNat 11 || c == Char.ofNat 12

/-- Numeric value of a digit run, as Python `int` on a digit string. -/
def digitsVal (ds : List Char) : Nat :=
  ds.foldl (fun a c => a * 10 + (c.toNat - '0'.toNat)) 0

/-! ### Constants from `const.py` -/

abbrev STATUS_NORMAL : String := "Normal"
abbrev STATUS_MLCC2 : String := "M/LCC 2 Alert"
abbrev STATUS_OP4 : String := "OP-4"
abbrev STATUS_OP7 : String := "OP-7 Emergency"
abbrev STATUS_EEA1 : String := "EEA Level 1"
abbrev STATUS_EEA2 : String := "EEA Level 2"
abbrev STATUS_EEA3 : String := "EEA Level 3"

abbrev SEVERITY_NORMAL : Nat := 0
abbrev SEVERITY_MLCC2 : Nat := 1
abbrev SEVERITY_OP4_EARLY : Nat := 2
abbrev SEVERITY_POWER_WATCH : Nat := 3
abbrev SEVERITY_POWER_WARNING : Nat := 4
abbrev SEVERITY_EMERGENCY : Nat := 5

/-! ### `_extract_op4_action` (coordinator.py lines 470-488)

The three regex patterns `action\s+(\d+)`, `op-?4\s+action\s+(\d+)`,
`op-?4\s+(\d+)` are tried in order against the lower-cased text; a
pattern's leftmost match yields its captured digit run, and the first
pattern whose captured value lies in [1, 11] wins.  The character-class
steps (`\s+`, `\d+`) are greedy, and since the classes are disjoint from
the following literals, the maximal-munch reading below coincides with
the regex engine's backtracking semantics. -/

/-- Consume a literal prefix. -/
def dropLit : List Char → List Char → Option (List Char)
  | [], s => some s
  | _ :: _, [] => none
  | c :: cs, d :: ds => if c == d then dropLit cs ds else none

/-- Consume `\s+` (one or more whitespace characters, maximal). -/
def dropWs1 : List Char → Option (List Char)
  | [] => none
  | c :: rest => if isPySpace c then some (rest.dropWhile isPySpace) else none

/-- Consume `(\d+)` (one or more digits, maximal) and return its value. -/
def readDigits1 (s : List Char) : Option Nat :=
  let ds := s.takeWhile isPyDigit
  if ds.isEmpty then none else some (digitsVal ds)

/-- Consume `op-?4`.  The optional `-` is deterministic because the
following literal is `4`. -/
def dropOp4 (s : List Char) : Option (List Char) := do
  let s ← dropLit (lstr "op") s
  let s := match s with
    | '-' :: rest => rest
    | other => other
  dropLit (lstr "4") s

/-- Pattern `action\s+(\d+)` anchored at the start of `s`. -/
def patAction (s : List Char) : Option Nat := do
  let s ← dropLit (lstr "action") s
  let s ← dropWs1 s
  readDigits1 s

/-- Pattern `op-?4\s+action\s+(\d+)` anchored at the start of `s`. -/
def patOp4Action (s : List Char) : Option Nat := do
  let s ← dropOp4 s
  let s ← dropWs1 s
  let s ← dropLit (lstr "action") s
  let s ← dropWs1 s
  readDigits1 s

/-- Pattern `op-?4\s+(\d+)` anchored at the start of `s`. -/
def patOp4Num (s : List Char) : Option Nat := do
  let s ← dropOp4 s
  let s ← dropWs1 s
  readDigits1 s

/-- `re.search`: try the anchored pattern at each position, left to right. -/
def searchPat (pat : List Char → Option Nat) : List Char → Option Nat
  | [] => pat []
  | c :: rest =>
    match pat (c :: rest) with
    | some n => some n
    | none => searchPat pat rest

/-- The `for pattern in patterns` loop: first pattern whose leftmost match
captures a value in [1, 11]. -/
def tryPats : List (List Char → Option Nat) → List Char → Option Nat
  | [], _ => none
  | p :: ps, l =>
    match searchPat p l with
    | some n => if 1 ≤ n ∧ n ≤ 11 then some n else tryPats ps l
    | none => tryPats ps l

/-- `_extract_op4_action(status_text)`. -/
def extractOp4Action (statusText : String) : Option Nat :=
  tryPats [patAction, patOp4Action, patOp4Num] (asciiLower statusText.toList)

/-! ### `_parse_status` (coordinator.py lines 377-468) -/

/-- The record built by `_parse_status`. -/
structure StatusRecord where
  status : String
  severity : Nat
  op4_action : Option Nat
  eea_level : Option Nat
  description : String
  is_emergency : Bool
deriving DecidableEq, Repr

/-- `_parse_status`, taking the status text (`status_data["status"]`).
The Python dict mutations are embedded as record updates of the baseline
record; `if action_num:` (Python truthiness) is the `some (n + 1)` match. -/
def parseStatus (statusText : String) : StatusRecord :=
  let base : StatusRecord :=
    { status := statusText
      severity := SEVERITY_NORMAL
      op4_action := none
      eea_level := none
      description := "Grid operating normally"
      is_emergency := false }
  let l := asciiLower statusText.toList
  if containsSub (lstr "op-7") l || containsSub (lstr "op7") l ||
      containsSub (lstr "load shed") l then
    { base with status := STATUS_OP7, severity := SEVERITY_EMERGENCY
                description := "Emergency - Load shedding may occur"
                is_emergency := true }
  else if containsSub (lstr "eea") l ||
      containsSub (lstr "energy emergency alert") l then
    if containsSub (lstr "eea 3") l || containsSub (lstr "eea level 3") l then
      { base with status := STATUS_EEA3, eea_level := some 3
                  severity := SEVERITY_EMERGENCY
                  description := "Energy Emergency Alert Level 3"
                  is_emergency := true }
    else if containsSub (lstr "eea 2") l || containsSub (lstr "eea level 2") l then
      { base with status := STATUS_EEA2, eea_level := some 2
                  severity := SEVERITY_POWER_WARNING
                  description := "Energy Emergency Alert Level 2"
                  is_emergency := true }
    else if containsSub (lstr "eea 1") l || containsSub (lstr "eea level 1") l then
      { base with status := STATUS_EEA1, eea_level := some 1
                  severity := SEVERITY_OP4_EARLY
                  description := "Energy Emergency Alert Level 1"
                  is_emergency := false }
    else base
  else if containsSub (lstr "op-4") l || containsSub (lstr "op4") l then
    let actionNum := extractOp4Action statusText
    let p := { base with status := STATUS_OP4, op4_action := actionNum }
    match actionNum with
    | some (n + 1) =>
      if n + 1 ≥ 10 then
        { p with severity := SEVERITY_EMERGENCY, is_emergency := true
                 description := "OP-4 Action " ++ toString (n + 1) ++ " - Critical" }
      else if n + 1 ≥ 6 then
        { p with severity := SEVERITY_POWER_WARNING, is_emergency := true
                 description := "OP-4 Action " ++ toString (n + 1) ++ " - Power Warning" }
      else if n + 1 ≥ 4 then
        { p with severity := SEVERITY_POWER_WATCH, is_emergency := false
                 description := "OP-4 Action " ++ toString (n + 1) ++ " - Power Watch" }
      else
        { p with severity := SEVERITY_OP4_EARLY, is_emergency := false
                 description := "OP-4 Action " ++ toString (n + 1) ++ " - Early Warning" }
    | _ =>
      { p with severity := SEVERITY_OP4_EARLY
               description := "OP-4 Capacity Deficiency Procedure Active" }
  else if containsSub (lstr "m/lcc") l || containsSub (lstr "mlcc") l ||
      containsSub (lstr "abnormal") l then
    { base with status := STATUS_MLCC2, severity := SEVERITY_MLCC2
                description := "Abnormal conditions alert" }
  else if containsSub (lstr "power warning") l then
    { base with severity := SEVERITY_POWER_WARNING, is_emergency := true
                description := "Power Warning - Immediate reduction needed" }
  else if containsSub (lstr "power watch") l then
    { base with severity := SEVERITY_POWER_WATCH
                description := "Power Watch - Conservation may be needed" }
  else if containsSub (lstr "power caution") l then
    { base with severity := SEVERITY_OP4_EARLY
                description := "Power Caution - Resources on alert" }
  else base

/-! ### `_get_forecast_alerts_csv` (coordinator.py lines 253-375)

The CSV-text analysis run on a 200-status response body.  Python's
`str.split('\n')`, the quote-aware `regex.split`, `str.strip`, `float`,
and the two alert-derivation passes are embedded below.  `float` division
by zero raises `ZeroDivisionError`, which the per-day
`except (ValueError, IndexError)` does NOT catch, so it aborts the whole
analysis into the outer exception handler; the embedding tracks this with
`Option` (`none` = the `ZeroDivisionError` escaped to the outer handler). -/

/-- Strip a run of characters satisfying `p` from both ends (Python `str.strip`). -/
def stripAll (p : Char → Bool) (l : List Char) : List Char :=
  ((l.dropWhile p).reverse.dropWhile p).reverse

/-- `line.strip()` with the default whitespace set. -/
def pyStrip (l : List Char) : List Char := stripAll isPySpace l

/-- `p.strip('"')`. -/
def stripQuotes (l : List Char) : List Char := stripAll (· == '"') l

/-- `csv_text.split('\n')`. -/
def splitOnNl : List Char → List (List Char)
  | [] => [[]]
  | c :: rest =>
    if c = '\n' then [] :: splitOnNl rest
    else
      match splitOnNl rest with
      | [] => [[c]]
      | f :: fs => (c :: f) :: fs

/-- Number of `"` characters in a list. -/
def countQuotes (l : List Char) : Nat := (l.filter (· == '"')).length

/-- `regex.split(',(?=(?:[^"]*"[^"]*")*[^"]*$)', line)`: split at each comma
whose suffix contains an even number of `"` characters. -/
def splitCsv : List Char → List (List Char)
  | [] => [[]]
  | c :: rest =>
    if c = ',' ∧ countQuotes rest % 2 = 0 then [] :: splitCsv rest
    else
      match splitCsv rest with
      | [] => [[c]]
      | f :: fs => (c :: f) :: fs

/-- Python `float(s)` restricted to the plain decimal forms of this feed
(optional sign, integer part, optional fractional part; exponent and
inf/nan spellings are not produced by the endpoint and are omitted).
`none` models a `ValueError`. -/
def parseFloat? (s : List Char) : Option ℚ :=
  let t := pyStrip s
  let sgnAndRest : ℚ × List Char :=
    match t with
    | '-' :: r => (-1, r)
    | '+' :: r => (1, r)
    | other => (1, other)
  let sgn := sgnAndRest.1
  let t1 := sgnAndRest.2
  let ip := t1.takeWhile isPyDigit
  let r1 := t1.dropWhile isPyDigit
  match r1 with
  | [] => if ip.isEmpty then none else some (sgn * digitsVal ip)
  | '.' :: r2 =>
    let fp := r2.takeWhile isPyDigit
    let r3 := r2.dropWhile isPyDigit
    if r3.isEmpty ∧ (!ip.isEmpty || !fp.isEmpty) then
      some (sgn * ((digitsVal ip : ℚ) + (digitsVal fp : ℚ) / 10 ^ fp.length))
    else none
  | _ => none

/-- `v.replace(',', '')`. -/
def removeCommas (l : List Char) : List Char := l.filter (· ≠ ',')

/-- One step of the line loop accumulating `days` (last `H` row wins) and
the `data` dict (`data[label] = values`, last assignment wins on lookup). -/
def csvAccum (st : List (List Char) × List (List Char × List (List Char)))
    (line : List Char) : List (List Char) × List (List Char × List (List Char)) :=
  if (pyStrip line).isEmpty then st
  else
    let parts := (splitCsv line).map stripQuotes
    match parts with
    | [] => st
    | lineType :: _ =>
      if lineType == lstr "H" && parts.length > 2 then (parts.drop 2, st.2)
      else if lineType == lstr "D" && parts.length > 1 then
        let label := parts.getD 1 []
        let values := if parts.length > 2 then parts.drop 2 else []
        if !label.isEmpty && !values.isEmpty then (st.1, st.2 ++ [(label, values)])
        else st
      else st

/-- The header/data accumulation over all lines of the CSV text. -/
def parseCsvLines (text : List Char) :
    List (List Char) × List (List Char × List (List Char)) :=
  (splitOnNl text).foldl csvAccum ([], [])

/-- Dict membership/lookup (`label in data`, `data[label]`): the most
recent assignment wins. -/
def dget (d : List (List Char × List (List Char))) (k : List Char) :
    Option (List (List Char)) :=
  (d.reverse.find? (fun p => p.1 == k)).map (·.2)

def csoLabel : List Char := lstr "Total Capacity Supply Obligation (CSO)"
def availLabel : List Char := lstr "Total Available Generation and Imports"
def outagesLabel : List Char := lstr "Anticipated Cold Weather Outages"

/-- One alert record.  The `message` f-string only interpolates the numeric
values; the embedding stores them in `nums` (formatting of the message text
carries no further information). -/
structure ForecastAlert where
  atype : String
  keyword : String
  nums : List ℚ
deriving DecidableEq, Repr

/-- One per-day entry of the `alerts` list. -/
structure ForecastDay where
  date : List Char
  days_ahead : Nat
  alerts : List ForecastAlert
  alert_count : Nat
deriving DecidableEq, Repr

/-- The margin-pass alert for one day. -/
def marginAlertRec (margin availV csoV : ℚ) : ForecastAlert :=
  { atype := if margin < 0 then "Critical Reserve Margin" else "Low Reserve Margin"
    keyword := "capacity"
    nums := [margin, availV, csoV] }

/-- The cold-weather-outage alert. -/
def coldAlertRec (v : ℚ) : ForecastAlert :=
  { atype := "High Cold Weather Outages", keyword := "outage", nums := [v] }

/-- Outcome of the margin check for one day index. -/
inductive MarginOutcome where
  | skip
  | alert (d : ForecastDay)
  | zde
deriving DecidableEq, Repr

/-- The body of the margin loop at index `i`: `skip` models both the guard
failing and a caught `ValueError`; `zde` models the uncaught
`ZeroDivisionError` when the parsed CSO value is 0. -/
def marginCheck (days cso avail : List (List Char)) (i : Nat) : MarginOutcome :=
  if i < cso.length && i < avail.length then
    match parseFloat? (removeCommas (cso.getD i [])) with
    | none => .skip
    | some csoV =>
      match parseFloat? (removeCommas (avail.getD i [])) with
      | none => .skip
      | some availV =>
        if csoV = 0 then .zde
        else
          let margin := (availV - csoV) / csoV * 100
          if margin < 5 then
            .alert { date := days.getD i []
                     days_ahead := i
                     alerts := [marginAlertRec margin availV csoV]
                     alert_count := 1 }
          else .skip
  else .skip

/-- The `for i, day in enumerate(days)` margin loop; `none` = a
`ZeroDivisionError` escaped. -/
def marginLoop (days cso avail : List (List Char)) :
    List Nat → List ForecastDay → Option (List ForecastDay)
  | [], acc => some acc
  | i :: rest, acc =>
    match marginCheck days cso avail i with
    | .zde => none
    | .skip => marginLoop days cso avail rest acc
    | .alert d => marginLoop days cso avail rest (acc ++ [d])

/-- The cold-weather trigger at index `i`: the guard `i < len(outages)`, a
parse (caught `ValueError` → `none`) and the `> 3000` threshold. -/
def coldVal (outs : List (List Char)) (i : Nat) : Option ℚ :=
  if i < outs.length then
    match parseFloat? (removeCommas (outs.getD i [])) with
    | some v => if 3000 < v then some v else none
    | none => none
  else none

/-- Append the cold alert to an existing day entry and bump its count. -/
def addCold (v : ℚ) (d : ForecastDay) : ForecastDay :=
  { d with alerts := d.alerts ++ [coldAlertRec v], alert_count := d.alert_count + 1 }

/-- Mutate the first entry whose `days_ahead` equals `i`
(`next(a for a in alerts if a["days_ahead"] == i)` followed by in-place update). -/
def coldUpdate (i : Nat) (v : ℚ) : List ForecastDay → List ForecastDay
  | [] => []
  | d :: ds => if d.days_ahead == i then addCold v d :: ds else d :: coldUpdate i v ds

/-- The body of the cold-weather loop at index `i`. -/
def coldStep (days outs : List (List Char)) (alerts : List ForecastDay)
    (i : Nat) : List ForecastDay :=
  match coldVal outs i with
  | none => alerts
  | some v =>
    if alerts.any (fun a => a.days_ahead == i) then coldUpdate i v alerts
    else alerts ++ [{ date := days.getD i []
                      days_ahead := i
                      alerts := [coldAlertRec v]
                      alert_count := 1 }]

/-- The `for i, day in enumerate(days)` cold-weather loop. -/
def coldLoop (days outs : List (List Char)) :
    List Nat → List ForecastDay → List ForecastDay
  | [], alerts => alerts
  | i :: rest, alerts => coldLoop days outs rest (coldStep days outs alerts i)

/-- The dict returned by `_get_forecast_alerts_csv`.  `total_alerts` is
`none` on the exception path (the error dict has no such key);
`isError` records the presence of the `"error"` key. -/
structure ForecastResult where
  alerts : List ForecastDay
  has_alerts : Bool
  total_alerts : Option Nat
  isError : Bool
deriving DecidableEq, Repr

/-- The analysis `_get_forecast_alerts_csv` performs on a fetched CSV body
(the HTTP-200 path).  A `ZeroDivisionError` from the margin loop aborts to
the outer `except Exception` handler, which returns the empty error dict. -/
def analyzeForecast (csvText : String) : ForecastResult :=
  let pd := parseCsvLines csvText.toList
  let days := pd.1
  let data := pd.2
  let step1 : Option (List ForecastDay) :=
    match dget data csoLabel, dget data availLabel with
    | some cso, some avail => marginLoop days cso avail (List.range days.length) []
    | _, _ => some []
  match step1 with
  | none => { alerts := [], has_alerts := false, total_alerts := none, isError := true }
  | some alerts1 =>
    let alerts2 :=
      match dget data outagesLabel with
      | some outs => coldLoop days outs (List.range days.length) alerts1
      | none => alerts1
    { alerts := alerts2
      has_alerts := !alerts2.isEmpty
      total_alerts := some ((alerts2.map (·.alert_count)).sum)
      isError := false }

/-! ### `_get_capacity_csv` (coordinator.py lines 216-251)

The fetch transport and the pandas dataframe are external; the embedding
takes the fetch outcome as input: an exception anywhere in the fetch/parse
(`exc`), or an HTTP response with its status and, for the 200 path, the
parsed dataframe reduced to its column names paired with the first-row
value of each column (`none` models a NaN cell, on which `pd.notna` is
false). -/

inductive CapFetch where
  | exc
  | http (status : Nat) (df : List (String × Option ℚ))
deriving Repr

/-- `_get_capacity_csv`: HTTP status ≠ 200 returns the static fallback
31500.0; an exception returns 31500.0; otherwise the first column whose
lower-cased name contains "capacity" or "available" supplies the value
(31500.0 when that cell is NaN or no column matches).  Every path returns
a float: the function never raises and never returns the cached value. -/
def getCapacityCsv : CapFetch → ℚ
  | .exc => 31500
  | .http status df =>
    if status ≠ 200 then 31500
    else
      match df.find? (fun p =>
          containsSub (lstr "capacity") (asciiLower p.1.toList) ||
          containsSub (lstr "available") (asciiLower p.1.toList)) with
      | some (_, some v) => v
      | some (_, none) => 31500
      | none => 31500

/-! ### Capacity margin (coordinator.py lines 114-120) -/

/-- Python `round(x, 1)`: round half to even at one decimal, modelled on ℚ. -/
def roundHalfEven (x : ℚ) : ℤ :=
  let n := x.floor
  let f := x - n
  if f < 1 / 2 then n
  else if 1 / 2 < f then n + 1
  else if n % 2 = 0 then n else n + 1

/-- `round(margin, 1)`. -/
def roundTo1 (x : ℚ) : ℚ := (roundHalfEven (10 * x) : ℚ) / 10

/-- The capacity-margin block of `_async_update_data`:
`if data.get("capacity") and data["load"].get("total_load"):` computes
`round((capacity - total_load) / capacity * 100, 1)`, else `None`.
Python truthiness makes the guard fail when either value is absent OR
equal to 0.0. -/
def capacityMargin (capacity totalLoad : Option ℚ) : Option ℚ :=
  match capacity, totalLoad with
  | some c, some l =>
    if c = 0 ∨ l = 0 then none
    else some (roundTo1 ((c - l) / c * 100))
  | _, _ => none

/-! ### Refresh cadences and caching (`_async_update_data`, lines 75-139)

Times are seconds (`(now - last).total_seconds()`) on ℚ.  The fetch
results a cycle would obtain are inputs (`CycleFetch`); the `CycleOut`
record registers, per source, whether its fetch ran this cycle — the
shallow embedding of the executor/HTTP calls' side effects. -/

/-- Coordinator cache state: `last_*_update` timestamps and `cached_*`
values (all `None` at `__init__`). -/
structure RefreshState where
  lastZone : Option ℚ
  lastCap : Option ℚ
  lastForecast : Option ℚ
  cachedZone : Option ℚ
  cachedCap : Option ℚ
  cachedForecast : Option ForecastResult

/-- The fetch results the external sources would deliver this cycle. -/
structure CycleFetch where
  zoneLoad : Option ℚ
  totalLoad : Option ℚ
  capFetch : CapFetch
  forecastCsv : String

/-- The observable outcome of one cycle. -/
structure CycleOut where
  fetchedStatus : Bool
  fetchedLoad : Bool
  fetchedZone : Bool
  fetchedCap : Bool
  fetchedForecast : Bool
  zoneLoadOut : Option ℚ
  capacityOut : Option ℚ
  forecastOut : Option ForecastResult
  marginOut : Option ℚ

/-- `last_update is None or (now - last_update).total_seconds() >= cadence`. -/
def dueB (last : Option ℚ) (now cadence : ℚ) : Bool :=
  match last with
  | none => true
  | some t => cadence ≤ now - t

/-- One `_async_update_data` cycle.  `zoneCfg` is `self.zone and
self.zone_code` (always true for entries created by the config flow, which
fills the zone from a fixed table).  Status and load are fetched
unconditionally; zone load, capacity and forecast go through their
cadence gates (600 s, 1800 s, 1800 s), updating the cache and timestamp
when due and reusing the cached value otherwise. -/
def refreshStep (zoneCfg : Bool) (st : RefreshState) (now : ℚ)
    (f : CycleFetch) : RefreshState × CycleOut :=
  let zPart : RefreshState × Option ℚ × Bool :=
    if zoneCfg then
      if dueB st.lastZone now 600 then
        ({ st with cachedZone := f.zoneLoad, lastZone := some now }, f.zoneLoad, true)
      else (st, st.cachedZone, false)
    else (st, none, false)
  let st1 := zPart.1
  let cPart : RefreshState × Option ℚ × Bool :=
    if dueB st1.lastCap now 1800 then
      let c := getCapacityCsv f.capFetch
      ({ st1 with cachedCap := some c, lastCap := some now }, some c, true)
    else (st1, st1.cachedCap, false)
  let st2 := cPart.1
  let fPart : RefreshState × Option ForecastResult × Bool :=
    if dueB st2.lastForecast now 1800 then
      let r := analyzeForecast f.forecastCsv
      ({ st2 with cachedForecast := some r, lastForecast := some now }, some r, true)
    else (st2, st2.cachedForecast, false)
  (fPart.1,
   { fetchedStatus := true
     fetchedLoad := true
     fetchedZone := zPart.2.2
     fetchedCap := cPart.2.2
     fetchedForecast := fPart.2.2
     zoneLoadOut := zPart.2.1
     capacityOut := cPart.2.1
     forecastOut := fPart.2.1
     marginOut := capacityMargin cPart.2.1 f.totalLoad })

/-! ### Concrete CSV inputs used in the claim analyses -/

/-- Forecast CSV whose day 0 has CSO = 0 and whose day 1 has a 0.5 %
reserve margin. -/
def csoZeroCsv : String :=
  "H,,Day0,Day1\nD,Total Capacity Supply Obligation (CSO),0,20000\nD,Total Available Generation and Imports,20500,20100"

/-- Same input with day 0's CSO cell non-numeric instead of zero (a
`ValueError`, which the per-day handler does catch). -/
def csoSkipCsv : String :=
  "H,,Day0,Day1\nD,Total Capacity Supply Obligation (CSO),x,20000\nD,Total Available Generation and Imports,20500,20100"

/-- Forecast CSV where day 0 triggers only the cold-weather alert
(margin 7.5 %) and day 1 triggers only the margin alert (margin 0.5 %). -/
def coldBeforeMarginCsv : String :=
  "H,,Day0,Day1\nD,Total Capacity Supply Obligation (CSO),20000,20000\nD,Total Available Generation and Imports,21500,20100\nD,Anticipated Cold Weather Outages,3500,0"

/-! ### Claim theorems -/

attribute [local semireducible] Rat.mul Rat.add Rat.sub Rat.inv Rat.ofScientific

/-- C6: every raw status string containing "OP-7" (in any letter case,
with any surrounding text) parses to severity 5 with `is_emergency`
true: the containment makes the first branch's disjunction true. -/
theorem op7_severity (s : String)
    (h : containsSub (lstr "op-7") (asciiLower s.toList) = true) :
    (parseStatus s).severity = 5 ∧ (parseStatus s).is_emergency = true := by
  simp only [String.toList] at h
  simp [parseStatus, h]

/-- Witness for C6 at the status text "Severe OP-7 declared". -/
theorem op7_severity_witness :
    containsSub (lstr "op-7") (asciiLower ("Severe OP-7 declared").toList) = true ∧
    (parseStatus "Severe OP-7 declared").severity = 5 ∧
    (parseStatus "Severe OP-7 declared").is_emergency = true := by
  have h := op7_severity "Severe OP-7 declared" (by decide)
  exact ⟨by decide, h.1, h.2⟩

/-- C8: a status text whose lower-cased form contains "eea", does not hit
the OP-7 branch, and matches no EEA level pattern keeps `eea_level` none
and the default description "Grid operating normally" (the EEA branch
changes nothing when no sub-pattern matches). -/
theorem eea_no_level (s : String)
    (h7 : containsSub (lstr "op-7") (asciiLower s.toList) = false)
    (h7b : containsSub (lstr "op7") (asciiLower s.toList) = false)
    (hls : containsSub (lstr "load shed") (asciiLower s.toList) = false)
    (he : containsSub (lstr "eea") (asciiLower s.toList) = true)
    (h3 : containsSub (lstr "eea 3") (asciiLower s.toList) = false)
    (h3b : containsSub (lstr "eea level 3") (asciiLower s.toList) = false)
    (h2 : containsSub (lstr "eea 2") (asciiLower s.toList) = false)
    (h2b : containsSub (lstr "eea level 2") (asciiLower s.toList) = false)
    (h1 : containsSub (lstr "eea 1") (asciiLower s.toList) = false)
    (h1b : containsSub (lstr "eea level 1") (asciiLower s.toList) = false) :
    (parseStatus s).eea_level = none ∧
    (parseStatus s).description = "Grid operating normally" := by
  simp only [String.toList] at h7 h7b hls he h3 h3b h2 h2b h1 h1b
  simp [parseStatus, h7, h7b, hls, he, h3, h3b, h2, h2b, h1, h1b]

/-- Witness for C8 at the status text "EEA declared". -/
theorem eea_no_level_witness :
    containsSub (lstr "eea") (asciiLower ("EEA declared").toList) = true ∧
    (parseStatus "EEA declared").eea_level = none ∧
    (parseStatus "EEA declared").description = "Grid operating normally" := by
  have h := eea_no_level "EEA declared" (by decide) (by decide) (by decide)
    (by decide) (by decide) (by decide) (by decide) (by decide) (by decide) (by decide)
  exact ⟨by decide, h.1, h.2⟩

/-- C10: every record `_parse_status` produces satisfies
`is_emergency = (severity ≥ 4)`; checked across all branches of the
cascade. -/
theorem parse_emergency_iff_severity (s : String) :
    (parseStatus s).is_emergency = decide (4 ≤ (parseStatus s).severity) := by
  simp only [parseStatus]
  repeat' split
  all_goals rfl

/-- C1 counterexample: "Load shed imminent - OP-4 Action 5" contains
"op-4" and its extraction would yield 5, but the OP-7 branch fires first
("load shed"), so the record has `op4_action` none and severity 5 — not
the claimed `op4_action = 5` with severity 3. -/
theorem op4_claim_counterexample :
    containsSub (lstr "op-4")
      (asciiLower ("Load shed imminent - OP-4 Action 5").toList) = true ∧
    extractOp4Action "Load shed imminent - OP-4 Action 5" = some 5 ∧
    (parseStatus "Load shed imminent - OP-4 Action 5").op4_action = none ∧
    (parseStatus "Load shed imminent - OP-4 Action 5").severity = 5 ∧
    (parseStatus "Load shed imminent - OP-4 Action 5").is_emergency = true := by
  decide

/-- C1 (amended): for status text containing "op-4"/"op4" whose
lower-cased form triggers neither the OP-7 branch nor the EEA branch, the
record carries the action number extracted by the ordered patterns of
`extractOp4Action`, with the claimed severity step function
(≥10 → 5, ≥6 → 4, ≥4 → 3, otherwise 2; none → 2) and
`is_emergency` exactly on action ≥ 6. -/
theorem op4_branch_spec (s : String)
    (h7 : containsSub (lstr "op-7") (asciiLower s.toList) = false)
    (h7b : containsSub (lstr "op7") (asciiLower s.toList) = false)
    (hls : containsSub (lstr "load shed") (asciiLower s.toList) = false)
    (he : containsSub (lstr "eea") (asciiLower s.toList) = false)
    (he2 : containsSub (lstr "energy emergency alert") (asciiLower s.toList) = false)
    (h4 : (containsSub (lstr "op-4") (asciiLower s.toList) ||
           containsSub (lstr "op4") (asciiLower s.toList)) = true) :
    (parseStatus s).status = STATUS_OP4 ∧
    (parseStatus s).op4_action = extractOp4Action s ∧
    (parseStatus s).severity =
      (match extractOp4Action s with
       | some n => if 10 ≤ n then 5 else if 6 ≤ n then 4 else if 4 ≤ n then 3 else 2
       | none => 2) ∧
    (parseStatus s).is_emergency =
      (match extractOp4Action s with
       | some n => decide (6 ≤ n)
       | none => false) := by
  simp only [parseStatus]
  rw [h7, h7b, hls, he, he2]
  simp only [Bool.or_self, Bool.or_false, Bool.false_or, Bool.false_eq_true, if_false]
  rcases hE : extractOp4Action s with _ | n
  · simp_all
  · rcases n with _ | m
    · simp_all
    · simp only [hE]
      rw [if_pos h4]
      refine ⟨?_, ?_, ?_, ?_⟩
      · split_ifs <;> rfl
      · split_ifs <;> rfl
      · split_ifs <;> rfl
      · split_ifs <;> first | rfl | omega | (simp; omega)

/-- Witness for C1 at the spec's scenario text
"System in OP-4 Action 9 - Industrial Curtailment". -/
theorem op4_branch_spec_witness :
    (containsSub (lstr "op-4")
        (asciiLower ("System in OP-4 Action 9 - Industrial Curtailment").toList) ||
     containsSub (lstr "op4")
        (asciiLower ("System in OP-4 Action 9 - Industrial Curtailment").toList)) = true ∧
    (parseStatus "System in OP-4 Action 9 - Industrial Curtailment").status = STATUS_OP4 ∧
    (parseStatus "System in OP-4 Action 9 - Industrial Curtailment").op4_action = some 9 ∧
    (parseStatus "System in OP-4 Action 9 - Industrial Curtailment").severity = 4 ∧
    (parseStatus "System in OP-4 Action 9 - Industrial Curtailment").is_emergency = true := by
  have h := op4_branch_spec "System in OP-4 Action 9 - Industrial Curtailment"
    (by decide) (by decide) (by decide) (by decide) (by decide) (by decide)
  refine ⟨by decide, h.1, ?_, ?_, ?_⟩
  · rw [h.2.1]; decide
  · rw [h.2.2.1]; decide
  · rw [h.2.2.2]; decide

/-- C2: a CSO value of 0 at day 0 raises `ZeroDivisionError`, which the
per-day `except (ValueError, IndexError)` does not catch; the whole
analysis aborts to the outer handler and returns the error dict with NO
alerts — day 1's margin alert is lost, against the claim.  The third
conjunct shows the same input with day 0's cell merely non-numeric does
emit day 1's alert. -/
theorem cso_zero_aborts_analysis :
    (analyzeForecast csoZeroCsv).isError = true ∧
    (analyzeForecast csoZeroCsv).alerts = [] ∧
    (analyzeForecast csoSkipCsv).alerts.map (fun a => a.days_ahead) = [1] := by
  decide

/-- C3: with a margin-only alert on day 1 and a cold-weather-only alert
on day 0, the result lists day 1 before day 0 — the alerts sequence is
not sorted by `days_ahead` ascending (no final sort exists in the code). -/
theorem alerts_not_sorted_by_days_ahead :
    (analyzeForecast coldBeforeMarginCsv).alerts.map (fun a => a.days_ahead) = [1, 0] := by
  decide

/-- C5 counterexample: at capacity 31500 and total load 0 the code yields
`None` (Python truthiness of `0.0`), while the claimed formula gives
100.0. -/
theorem margin_claim_counterexample :
    capacityMargin (some 31500) (some 0) = none ∧
    roundTo1 ((31500 - 0) / 31500 * 100) = 100 := by
  constructor
  · decide
  · decide

/-- C5 (amended): the margin is `round((capacity - total_load) / capacity
* 100, 1)` and is none whenever capacity is missing or zero or the total
load is missing or zero; for capacity 31500 and load 28000 it is 11.1. -/
theorem capacity_margin_amended :
    (∀ c l : ℚ, c ≠ 0 → l ≠ 0 →
      capacityMargin (some c) (some l) = some (roundTo1 ((c - l) / c * 100))) ∧
    (∀ l, capacityMargin none l = none) ∧
    (∀ c, capacityMargin (some c) none = none) ∧
    (∀ l, capacityMargin (some 0) (some l) = none) ∧
    (∀ c, capacityMargin (some c) (some 0) = none) ∧
    capacityMargin (some 31500) (some 28000) = some (111 / 10) := by
  refine ⟨?_, ?_, ?_, ?_, ?_, ?_⟩
  · intro c l hc hl
    simp [capacityMargin, hc, hl]
  · intro l; cases l <;> rfl
  · intro c; rfl
  · intro l; simp [capacityMargin]
  · intro c; simp [capacityMargin]
  · decide

/-- Witness for C5 at the spec's scenario (capacity 31500, load 28000). -/
theorem capacity_margin_amended_witness :
    (31500 : ℚ) ≠ 0 ∧ (28000 : ℚ) ≠ 0 ∧
    capacityMargin (some 31500) (some 28000) =
      some (roundTo1 ((31500 - 28000) / 31500 * 100)) :=
  ⟨by norm_num, by norm_num,
   capacity_margin_amended.1 31500 28000 (by norm_num) (by norm_num)⟩

/-- Cache state holding a previously fetched capacity of 30000. -/
def c4CachedState : RefreshState :=
  { lastZone := none, lastCap := some 0, lastForecast := some 1000
    cachedZone := none, cachedCap := some 30000, cachedForecast := none }

/-- A cycle whose capacity fetch answers HTTP 500. -/
def c4Fetch : CycleFetch :=
  { zoneLoad := none, totalLoad := none, capFetch := .http 500 [], forecastCsv := "" }

/-- C4 counterexample: with 30000 cached and the capacity fetch due and
failing with HTTP 500, the cycle reports 31500 (the static fallback
overwrites the cache) — not the cached 30000 the claim requires. -/
theorem capacity_fallback_counterexample :
    c4CachedState.cachedCap = some 30000 ∧
    (refreshStep true c4CachedState 1800 c4Fetch).2.capacityOut = some 31500 ∧
    ((31500 : ℚ) ≠ 30000) := by
  refine ⟨rfl, ?_, by norm_num⟩
  have h1 : dueB none 1800 600 = true := rfl
  have h2 : dueB (some 0) 1800 1800 = true := by decide
  have h3 : dueB (some 1000) 1800 1800 = false := by decide
  simp [refreshStep, h1, h2, h3, c4CachedState, c4Fetch, getCapacityCsv]

/-- C4 (amended): when the due capacity fetch fails (HTTP ≠ 200 or any
exception), the cycle's capacity value is the static fallback 31500.0,
which also replaces the cached value; no exception reaches the caller
(`getCapacityCsv` is total).  The cached value is reused only on cycles
where the source is not due (see the cadence theorem). -/
theorem capacity_fetch_failure (st : RefreshState) (now : ℚ) (f : CycleFetch)
    (hdue : dueB st.lastCap now 1800 = true)
    (hfail : f.capFetch = CapFetch.exc ∨
      ∃ s df, f.capFetch = CapFetch.http s df ∧ s ≠ 200) :
    (refreshStep true st now f).2.capacityOut = some 31500 ∧
    (refreshStep true st now f).1.cachedCap = some 31500 := by
  have hget : getCapacityCsv f.capFetch = 31500 := by
    rcases hfail with h | ⟨c, df, h, hs⟩
    · rw [h]; rfl
    · rw [h]; simp [getCapacityCsv, hs]
  by_cases hz : dueB st.lastZone now 600 = true <;>
  by_cases hf : dueB st.lastForecast now 1800 = true <;>
  simp_all [refreshStep]

/-- Empty initial state (as at coordinator `__init__`). -/
def c4wState : RefreshState := ⟨none, none, none, none, none, none⟩

/-- A cycle whose capacity fetch raises. -/
def c4wFetch : CycleFetch := ⟨none, none, .exc, ""⟩

/-- Witness for C4: first cycle (everything due), capacity fetch raises
→ capacity is 31500. -/
theorem capacity_fetch_failure_witness :
    dueB c4wState.lastCap 0 1800 = true ∧
    (refreshStep true c4wState 0 c4wFetch).2.capacityOut = some 31500 :=
  ⟨rfl, (capacity_fetch_failure c4wState 0 c4wFetch rfl (Or.inl rfl)).1⟩

/-- C9: with a zone configured (the config flow always sets one), each
CSV source is fetched in a cycle iff its `last_fetch` is unset or
`now - last_fetch` reaches its cadence (600 s zone load, 1800 s capacity
and forecast); status and load are fetched every cycle; and a source that
is not due reuses its cached value with cache and timestamp unchanged. -/
theorem refresh_cadence (zoneCfg : Bool) (st : RefreshState) (now : ℚ)
    (f : CycleFetch) (hz : zoneCfg = true) :
    ((refreshStep zoneCfg st now f).2.fetchedZone = dueB st.lastZone now 600) ∧
    ((refreshStep zoneCfg st now f).2.fetchedCap = dueB st.lastCap now 1800) ∧
    ((refreshStep zoneCfg st now f).2.fetchedForecast = dueB st.lastForecast now 1800) ∧
    (refreshStep zoneCfg st now f).2.fetchedStatus = true ∧
    (refreshStep zoneCfg st now f).2.fetchedLoad = true ∧
    (dueB st.lastZone now 600 = false →
      (refreshStep zoneCfg st now f).2.zoneLoadOut = st.cachedZone ∧
      (refreshStep zoneCfg st now f).1.cachedZone = st.cachedZone ∧
      (refreshStep zoneCfg st now f).1.lastZone = st.lastZone) ∧
    (dueB st.lastCap now 1800 = false →
      (refreshStep zoneCfg st now f).2.capacityOut = st.cachedCap ∧
      (refreshStep zoneCfg st now f).1.cachedCap = st.cachedCap ∧
      (refreshStep zoneCfg st now f).1.lastCap = st.lastCap) ∧
    (dueB st.lastForecast now 1800 = false →
      (refreshStep zoneCfg st now f).2.forecastOut = st.cachedForecast ∧
      (refreshStep zoneCfg st now f).1.cachedForecast = st.cachedForecast ∧
      (refreshStep zoneCfg st now f).1.lastForecast = st.lastForecast) := by
  subst hz
  by_cases h1 : dueB st.lastZone now 600 = true <;>
  by_cases h2 : dueB st.lastCap now 1800 = true <;>
  by_cases h3 : dueB st.lastForecast now 1800 = true <;>
  simp_all [refreshStep]

/-! ### Day-merge analysis for the forecast passes (claim C7)

The margin loop appends at most one `ForecastDay` per index, so the
per-index view of the alerts list (its filter on `days_ahead == i`) is a
singleton wherever the margin check fired; the cold-weather loop only
touches the entry of the index it is visiting.  The lemmas below capture
both facts. -/

/-- The margin check's alert, as an optional value. -/
def mAlert? (days cso avail : List (List Char)) (i : Nat) : Option ForecastDay :=
  match marginCheck days cso avail i with
  | .alert d => some d
  | _ => none

theorem marginCheck_alert {days cso avail : List (List Char)} {i : Nat}
    {d : ForecastDay} (h : marginCheck days cso avail i = .alert d) :
    d.days_ahead = i ∧ d.alert_count = 1 := by
  unfold marginCheck at h
  dsimp only at h
  repeat' split at h
  all_goals cases h
  all_goals exact ⟨rfl, rfl⟩

theorem mAlert?_some {days cso avail : List (List Char)} {i : Nat}
    {d : ForecastDay} (h : mAlert? days cso avail i = some d) :
    d.days_ahead = i ∧ d.alert_count = 1 := by
  unfold mAlert? at h
  split at h
  · rename_i heq
    cases h
    exact marginCheck_alert heq
  · exact absurd h (by simp)

theorem marginLoop_eq (days cso avail : List (List Char)) :
    ∀ (idxs : List Nat) (acc l : List ForecastDay),
      marginLoop days cso avail idxs acc = some l →
      l = acc ++ idxs.filterMap (mAlert? days cso avail) := by
  intro idxs
  induction idxs with
  | nil =>
    intro acc l h
    simp only [marginLoop] at h
    cases h
    simp
  | cons j rest ih =>
    intro acc l h
    simp only [marginLoop] at h
    rcases hm : marginCheck days cso avail j with _ | d | _ <;> rw [hm] at h
    · have := ih acc l h
      simp [this, List.filterMap_cons, mAlert?, hm]
    · have := ih (acc ++ [d]) l h
      simp [this, List.filterMap_cons, mAlert?, hm]
    · exact absurd h (by simp)

theorem filterMap_margin_not_mem (days cso avail : List (List Char)) (i : Nat) :
    ∀ idxs : List Nat, i ∉ idxs →
      (idxs.filterMap (mAlert? days cso avail)).filter
        (fun a => a.days_ahead == i) = [] := by
  intro idxs
  induction idxs with
  | nil => intro _; rfl
  | cons j rest ih =>
    intro hmem
    have hji : j ≠ i := fun h => hmem (h ▸ List.mem_cons_self j rest)
    have hrest : i ∉ rest := fun h => hmem (List.mem_cons_of_mem j h)
    rcases hj : mAlert? days cso avail j with _ | d
    · simp [List.filterMap_cons, hj, ih hrest]
    · have hd := (mAlert?_some hj).1
      simp [List.filterMap_cons, hj, List.filter_cons, hd, hji, ih hrest]

theorem filterMap_margin_at (days cso avail : List (List Char)) (i : Nat)
    (md : ForecastDay) (hmd : mAlert? days cso avail i = some md) :
    ∀ idxs : List Nat, idxs.Nodup → i ∈ idxs →
      (idxs.filterMap (mAlert? days cso avail)).filter
        (fun a => a.days_ahead == i) = [md] := by
  intro idxs
  induction idxs with
  | nil => intro _ h; cases h
  | cons j rest ih =>
    intro hnd hmem
    rcases List.nodup_cons.mp hnd with ⟨hjrest, hndrest⟩
    by_cases hji : j = i
    · subst hji
      have hd := (mAlert?_some hmd).1
      simp [List.filterMap_cons, hmd, List.filter_cons, hd,
        filterMap_margin_not_mem days cso avail j rest hjrest]
    · have hirest : i ∈ rest := by
        rcases List.mem_cons.mp hmem with h | h
        · exact absurd h.symm hji
        · exact h
      rcases hj : mAlert? days cso avail j with _ | d
      · simp [List.filterMap_cons, hj, ih hndrest hirest]
      · have hd := (mAlert?_some hj).1
        simp [List.filterMap_cons, hj, List.filter_cons, hd, hji, ih hndrest hirest]

theorem coldUpdate_filter_ne {i j : Nat} (hji : j ≠ i) (v : ℚ) :
    ∀ l : List ForecastDay,
      (coldUpdate j v l).filter (fun a => a.days_ahead == i) =
        l.filter (fun a => a.days_ahead == i) := by
  intro l
  induction l with
  | nil => rfl
  | cons d rest ih =>
    by_cases hd : d.days_ahead = j
    · have hdi : (d.days_ahead == i) = false := by simp [hd, hji]
      simp [coldUpdate, hd, List.filter_cons, hdi, addCold, hji]
    · have hdj : (d.days_ahead == j) = false := by simp [hd]
      simp only [coldUpdate, hdj, if_false]
      simp [List.filter_cons, ih]

theorem coldUpdate_filter_at {i : Nat} (v : ℚ) {e : ForecastDay} :
    ∀ l : List ForecastDay,
      l.filter (fun a => a.days_ahead == i) = [e] →
      (coldUpdate i v l).filter (fun a => a.days_ahead == i) = [addCold v e] := by
  intro l
  induction l with
  | nil => intro h; cases h
  | cons d rest ih =>
    intro h
    by_cases hd : d.days_ahead = i
    · rw [List.filter_cons_of_pos (by simp [hd])] at h
      have hde : d = e := (List.cons_eq_cons.mp h).1
      have hrest : rest.filter (fun a => a.days_ahead == i) = [] :=
        (List.cons_eq_cons.mp h).2
      subst hde
      simp [coldUpdate, hd, List.filter_cons, addCold, hrest]
    · rw [List.filter_cons_of_neg (by simp [hd])] at h
      have hdj : (d.days_ahead == i) = false := by simp [hd]
      simp only [coldUpdate, hdj, if_false]
      simp [List.filter_cons, hdj, ih h]

theorem filter_singleton_any {i : Nat} {l : List ForecastDay} {e : ForecastDay}
    (h : l.filter (fun a => a.days_ahead == i) = [e]) :
    l.any (fun a => a.days_ahead == i) = true := by
  have : e ∈ l.filter (fun a => a.days_ahead == i) := h ▸ List.mem_singleton.mpr rfl
  rcases List.mem_filter.mp this with ⟨hmem, hp⟩
  exact List.any_eq_true.mpr ⟨e, hmem, hp⟩

theorem coldStep_filter_ne (days outs : List (List Char)) {i j : Nat}
    (hji : j ≠ i) (l : List ForecastDay) :
    (coldStep days outs l j).filter (fun a => a.days_ahead == i) =
      l.filter (fun a => a.days_ahead == i) := by
  unfold coldStep
  rcases hv : coldVal outs j with _ | v
  · rfl
  · by_cases hany : l.any (fun a => a.days_ahead == j) = true
    · simp only [hany, if_true]
      exact coldUpdate_filter_ne hji v l
    · simp only [Bool.not_eq_true] at hany
      simp [hany, List.filter_append, List.filter_cons, hji]

theorem coldStep_filter_at (days outs : List (List Char)) {i : Nat} {v : ℚ}
    (hv : coldVal outs i = some v) {l : List ForecastDay} {e : ForecastDay}
    (h : l.filter (fun a => a.days_ahead == i) = [e]) :
    (coldStep days outs l i).filter (fun a => a.days_ahead == i) =
      [addCold v e] := by
  unfold coldStep
  rw [hv]
  dsimp only
  rw [if_pos (filter_singleton_any h)]
  exact coldUpdate_filter_at v l h

theorem coldLoop_filter_not_mem (days outs : List (List Char)) (i : Nat) :
    ∀ (idxs : List Nat), i ∉ idxs → ∀ l : List ForecastDay,
      (coldLoop days outs idxs l).filter (fun a => a.days_ahead == i) =
        l.filter (fun a => a.days_ahead == i) := by
  intro idxs
  induction idxs with
  | nil => intro _ l; rfl
  | cons j rest ih =>
    intro hmem l
    have hji : j ≠ i := fun h => hmem (h ▸ List.mem_cons_self j rest)
    have hrest : i ∉ rest := fun h => hmem (List.mem_cons_of_mem j h)
    simp only [coldLoop]
    rw [ih hrest, coldStep_filter_ne days outs hji]

theorem coldLoop_filter_at (days outs : List (List Char)) {i : Nat} {v : ℚ}
    (hv : coldVal outs i = some v) {e : ForecastDay} :
    ∀ (idxs : List Nat), idxs.Nodup → i ∈ idxs → ∀ l : List ForecastDay,
      l.filter (fun a => a.days_ahead == i) = [e] →
      (coldLoop days outs idxs l).filter (fun a => a.days_ahead == i) =
        [addCold v e] := by
  intro idxs
  induction idxs with
  | nil => intro _ h; cases h
  | cons j rest ih =>
    intro hnd hmem l hfl
    rcases List.nodup_cons.mp hnd with ⟨hjrest, hndrest⟩
    simp only [coldLoop]
    by_cases hji : j = i
    · subst hji
      rw [coldLoop_filter_not_mem days outs j rest hjrest]
      exact coldStep_filter_at days outs hv hfl
    · have hirest : i ∈ rest := by
        rcases List.mem_cons.mp hmem with h | h
        · exact absurd h.symm hji
        · exact h
      refine ih hndrest hirest _ ?_
      rw [coldStep_filter_ne days outs hji, hfl]

/-- C7: whenever both a margin alert and a cold-weather alert are derived
for the same day index `i` (and the margin pass completes, producing `A`),
the analysis result contains exactly one `ForecastDay` with
`days_ahead = i`: the margin entry with the cold alert appended to its
alert list and its count incremented to the combined total 2. -/
theorem forecast_day_merge (csvText : String) (i : Nat)
    (md : ForecastDay) (v : ℚ) (cso avail outs : List (List Char))
    (A : List ForecastDay)
    (hcso : dget (parseCsvLines csvText.toList).2 csoLabel = some cso)
    (havail : dget (parseCsvLines csvText.toList).2 availLabel = some avail)
    (houts : dget (parseCsvLines csvText.toList).2 outagesLabel = some outs)
    (hi : i < (parseCsvLines csvText.toList).1.length)
    (hm : marginCheck (parseCsvLines csvText.toList).1 cso avail i = .alert md)
    (hc : coldVal outs i = some v)
    (hA : marginLoop (parseCsvLines csvText.toList).1 cso avail
      (List.range (parseCsvLines csvText.toList).1.length) [] = some A) :
    (analyzeForecast csvText).alerts.filter (fun a => a.days_ahead == i) =
      [addCold v md] ∧
    (addCold v md).alerts = md.alerts ++ [coldAlertRec v] ∧
    (addCold v md).alert_count = 2 := by
  have hmd : mAlert? (parseCsvLines csvText.toList).1 cso avail i = some md := by
    unfold mAlert?
    rw [hm]
  have hAeq : A = (List.range (parseCsvLines csvText.toList).1.length).filterMap
      (mAlert? (parseCsvLines csvText.toList).1 cso avail) := by
    have := marginLoop_eq (parseCsvLines csvText.toList).1 cso avail _ _ _ hA
    simpa using this
  have hAfl : A.filter (fun a => a.days_ahead == i) = [md] := by
    rw [hAeq]
    exact filterMap_margin_at _ cso avail i md hmd _
      (List.nodup_range _) (List.mem_range.mpr hi)
  have halerts : (analyzeForecast csvText).alerts =
      coldLoop (parseCsvLines csvText.toList).1 outs
        (List.range (parseCsvLines csvText.toList).1.length) A := by
    simp only [analyzeForecast]
    rw [hcso, havail]
    dsimp only
    rw [hA]
    dsimp only
    rw [houts]
  refine ⟨?_, rfl, ?_⟩
  · rw [halerts]
    exact coldLoop_filter_at _ outs hc _ (List.nodup_range _)
      (List.mem_range.mpr hi) A hAfl
  · have := (marginCheck_alert hm).2
    simp [addCold, this]

/-- Forecast CSV whose single day triggers both the margin alert
(margin 2.5 %) and the cold-weather alert (3500 MW). -/
def mergeCsv : String :=
  "H,,Day0\nD,Total Capacity Supply Obligation (CSO),20000\nD,Total Available Generation and Imports,20500\nD,Anticipated Cold Weather Outages,3500"

/-- The margin-pass entry for day 0 of `mergeCsv`. -/
def mergeMd : ForecastDay :=
  { date := lstr "Day0", days_ahead := 0
    alerts := [marginAlertRec (5 / 2) 20500 20000], alert_count := 1 }

/-- Witness for C7 on `mergeCsv`: day 0 carries exactly one entry holding
the margin alert plus the cold alert with combined count 2. -/
theorem forecast_day_merge_witness :
    coldVal [lstr "3500"] 0 = some 3500 ∧
    marginCheck (parseCsvLines mergeCsv.toList).1 [lstr "20000"] [lstr "20500"] 0 =
      .alert mergeMd ∧
    (analyzeForecast mergeCsv).alerts.filter (fun a => a.days_ahead == 0) =
      [addCold 3500 mergeMd] ∧
    (addCold 3500 mergeMd).alert_count = 2 := by
  have h := forecast_day_merge mergeCsv 0 mergeMd 3500
    [lstr "20000"] [lstr "20500"] [lstr "3500"] [mergeMd]
    (by decide) (by decide) (by decide) (by decide)
    (by decide) (by decide) (by decide)
  exact ⟨by decide, by decide, h.1, h.2.2⟩

/-- State with all three CSV timestamps set to 0 and caches populated. -/
def c9wState : RefreshState := ⟨some 0, some 0, some 0, some 5, some 6, none⟩

/-- A trivial cycle fetch. -/
def c9wFetch : CycleFetch := ⟨none, none, .exc, ""⟩

/-- Witness for C9 at time 100 s: status still fetched, the zone flag
equals its due bit, and the not-due capacity reuses the cached 6. -/
theorem refresh_cadence_witness :
    (refreshStep true c9wState 100 c9wFetch).2.fetchedStatus = true ∧
    (refreshStep true c9wState 100 c9wFetch).2.fetchedZone = dueB c9wState.lastZone 100 600 ∧
    (refreshStep true c9wState 100 c9wFetch).2.capacityOut = c9wState.cachedCap := by
  have h := refresh_cadence true c9wState 100 c9wFetch rfl
  have hc : dueB c9wState.lastCap 100 1800 = false := by decide
  exact ⟨h.2.2.2.1, h.1, (h.2.2.2.2.2.2.1 hc).1⟩

end IsoNe
